import Mathlib

/-!
Verification development for the `test-a-ble` repository
(`test_a_ble/test_runner.py`, `test_a_ble/test_discovery.py`).

The Python source is shallowly embedded: pure functions become Lean
functions; the stateful runner becomes explicit state passing on an
ordered results map; Python exceptions become an inductive type and
fallible code returns `Except` / `Option`.  Definitions keep the
source's names where Lean allows it.
-/

/-! ## Statuses, exceptions and results

`test_context.py` is not part of the sources available here (only
its importers are), so the pieces of it that the runner touches are
modelled from the spec, as marked below.
-/

/-- Modelled from the spec: `TestStatus` from the missing
`test_context.py` — "status ∈ PENDING, RUNNING, PASS, FAIL, ERROR,
SKIP" (spec section 3). -/
inductive TestStatus where
  | pending
  | running
  | pass
  | fail
  | error
  | skip
deriving DecidableEq, Repr

/-- Modelled from the spec: the exception taxonomy of the missing
`test_context.py` (spec section 7): `TestFailure` (assertion-style
failure), `TestSkip`, `TestException` carrying its own target status,
plus Python's built-in `AssertionError` and `TimeoutError` and a
catch-all for any other `Exception`, each carrying its message
(`str(e)`).  The cases are disjoint; `run_test`'s except clauses are
tried in source order, so any subclass relationships among the domain
exceptions do not change which clause handles which kind. -/
inductive PyExc where
  | testFailure (msg : String)
  | assertionError (msg : String)
  | testSkip (msg : String)
  | testException (status : TestStatus) (msg : String)
  | timeoutError (msg : String)
  | otherError (msg : String)
deriving DecidableEq, Repr

/-- A finalized or in-progress test result: the `status` / `message`
fields of the per-test result dictionaries stored in
`TestContext.test_results` (read by `run_test`, lines 56-61). -/
structure TestResult where
  status : TestStatus
  message : String
deriving DecidableEq, Repr

/-- Modelled from the spec: the run-scoped result store of
`TestContext` — "RunSummary: ordered mapping of qualified name →
TestResult" (spec section 3).  Python dict semantics: insertion
ordered, unique keys. -/
structure TestContext where
  test_results : List (String × TestResult)
deriving DecidableEq, Repr

/-- Dict lookup on the ordered results map. -/
def lookupResult : List (String × TestResult) → String → Option TestResult
  | [], _ => none
  | (k, v) :: rest, n => if k == n then some v else lookupResult rest n

/-- Dict update on the ordered results map: overwrite in place if the
key is present, otherwise append (Python dict insertion order). -/
def setResult : List (String × TestResult) → String → TestResult → List (String × TestResult)
  | [], n, r => [(n, r)]
  | (k, v) :: rest, n, r => if k == n then (k, r) :: rest else (k, v) :: setResult rest n r

/-! ## Test items

A `TestItem` in the source is either a bare async function or a
`(class_name, class_obj, method)` tuple.  Running one performs Python
calls whose dynamic outcomes (normal return or raised exception) are
part of the input of the embedding: each callable is modelled by the
exception it raises, `none` meaning a normal return. -/

/-- A class-bound test item `(class_name, class_obj, method)` together
with the dynamic behaviour of each call the runner makes on it:
`constructorRaises` is the outcome of `class_obj()`, `setUpOutcome`
of `setUp(...)` (consulted only when `hasSetUp`), `methodOutcome` of
the test method, `tearDownOutcome` of `tearDown(...)` (consulted only
when `hasTearDown`).  `none` = normal return. -/
structure ClassItem where
  className : String
  constructorRaises : Option PyExc
  hasSetUp : Bool
  setUpOutcome : Option PyExc
  methodOutcome : Option PyExc
  hasTearDown : Bool
  tearDownOutcome : Option PyExc
deriving DecidableEq, Repr

/-- A standalone test function, modelled by the outcome of calling it. -/
structure FuncItem where
  outcome : Option PyExc
deriving DecidableEq, Repr

/-- `TestItem = Callable | tuple[str, Any, Callable]`
(test_discovery.py line 28); `run_test` distinguishes the two by
`isinstance(test_item, tuple)`. -/
inductive TestItem where
  | classItem (c : ClassItem)
  | funcItem (f : FuncItem)
deriving DecidableEq, Repr

/-- `TestRunner._run_class_test` (test_runner.py lines 146-166):
construct the class with no arguments, run `setUp` if the instance has
one, then run the test method; the instance is returned only when all
three steps return normally, and any exception propagates to
`run_test`.  The returned unit value stands for the instance. -/
def _run_class_test (c : ClassItem) : Except PyExc Unit :=
  match c.constructorRaises with
  | some e => .error e
  | none =>
    match (if c.hasSetUp then c.setUpOutcome else none) with
    | some e => .error e
    | none =>
      match c.methodOutcome with
      | some e => .error e
      | none => .ok ()

/-- `TestRunner._run_standalone_test` (lines 168-175): await the test
function; its exception, if any, propagates. -/
def _run_standalone_test (f : FuncItem) : Except PyExc Unit :=
  match f.outcome with
  | some e => .error e
  | none => .ok ()

/-- The body of `run_test`'s `try:` block, lines 74-77: class items go
through `_run_class_test`, others through `_run_standalone_test`. -/
def runTestBody (item : TestItem) : Except PyExc Unit :=
  match item with
  | .classItem c => _run_class_test c
  | .funcItem f => _run_standalone_test f

/-- `TestRunner._run_teardown` (lines 192-209): if the instance has a
`tearDown`, call it; any exception it raises is caught inside
`_run_teardown` and logged, never re-raised.  The return value is the
swallowed exception (observable only through the log). -/
def _run_teardown (c : ClassItem) : Option PyExc :=
  if c.hasTearDown then c.tearDownOutcome else none

/-- Everything observable about one `run_test` call: the returned
result dictionary, the updated `test_results` store, whether the test
body was executed (`False` when a cached result was returned), whether
`tearDown` was attempted in the `finally:` block, and the exception
`_run_teardown` swallowed there, if any.  `run_test` itself never
lets an exception escape: every `Exception` raised by the body is
caught by one of its except clauses, which the totality of this
function encodes. -/
structure RunTestOutcome where
  result : TestResult
  results : List (String × TestResult)
  executedBody : Bool
  tearDownAttempted : Bool
  tearDownSwallowed : Option PyExc
deriving DecidableEq, Repr

/-- The except clauses of `run_test` (lines 81-100), in source order:
`TestFailure` and `AssertionError` → FAIL with the failure text,
`TestSkip` → SKIP with the skip text, `TestException` → its carried
status, `TimeoutError` → ERROR, any other `Exception` → ERROR with the
exception text. -/
def excToResult (e : PyExc) : TestStatus × String :=
  match e with
  | .testFailure m => (.fail, m)
  | .assertionError m => (.fail, m)
  | .testSkip m => (.skip, m)
  | .testException s m => (s, m)
  | .timeoutError m => (.error, m)
  | .otherError m => (.error, m)

/-- The part of `run_test` after the duplicate-result guard (lines
63-107).  `start_test` and `end_test` of the missing
`test_context.py` are modelled from the spec: "TestResult ... Created
at test start, finalized exactly once at test end" under the test's
qualified name (spec sections 3 and 6); the display description is
presentation only and not modelled.  The `finally:` block attempts
`tearDown` only when the local `test_class_instance` is truthy, and
that local is assigned only when `_run_class_test` returns normally
(line 75); default object truthiness is assumed. -/
def runTestFresh (ctx : TestContext) (test_name : String) (item : TestItem) : RunTestOutcome :=
  let results1 := setResult ctx.test_results test_name ⟨.running, ""⟩
  let body := runTestBody item
  let sm : TestStatus × String :=
    match body with
    | .ok _ => (.pass, "")
    | .error e => excToResult e
  let result : TestResult := ⟨sm.1, sm.2⟩
  let results2 := setResult results1 test_name result
  let instanceAssigned : Bool :=
    match item, body with
    | .classItem _, .ok _ => true
    | _, _ => false
  let swallowed : Option PyExc :=
    match item, instanceAssigned with
    | .classItem c, true => _run_teardown c
    | _, _ => none
  ⟨result, results2, true, instanceAssigned, swallowed⟩

/-- `TestRunner.run_test` (lines 45-107): if a prior result exists for
this name and its status is not RUNNING, return it unchanged without
executing anything; otherwise run the test body and finalize. -/
def run_test (ctx : TestContext) (test_name : String) (item : TestItem) : RunTestOutcome :=
  match lookupResult ctx.test_results test_name with
  | some r =>
    if r.status ≠ .running then
      ⟨r, ctx.test_results, false, false, none⟩
    else
      runTestFresh ctx test_name item
  | none => runTestFresh ctx test_name item

/-- `TestRunner.run_tests` (lines 109-123): run each test in order via
`run_test` (which never raises for `Exception`-derived errors), then
return the summary.  The second component counts the tests actually
handed to `run_test`, and the returned context holds the final
results map (the summary is derived from it). -/
def run_tests (ctx : TestContext) : List (String × TestItem) → TestContext × Nat
  | [] => (ctx, 0)
  | (n, it) :: rest =>
    let out := run_test ctx n it
    let r := run_tests ⟨out.results⟩ rest
    (r.1, r.2 + 1)

/-! ## Python strings for the discovery pipeline

Discovery manipulates strings (splitting, matching, ordering), so its
embedding models a Python `str` as a `List Char` (code points, which is
how Python compares and slices strings). -/

/-- A Python string, as its list of code points. -/
abbrev Str := List Char

/-- Model of Python `pattern in s` for a single-character pattern:
some position of `s` holds `c`. -/
def strContainsChar : Str → Char → Bool
  | [], _ => false
  | c :: cs, t => c == t || strContainsChar cs t

/-- Model of Python `s.startswith(p)`. -/
def strStartsWith : Str → Str → Bool
  | _, [] => true
  | [], _ :: _ => false
  | c :: cs, p :: ps => c == p && strStartsWith cs ps

/-- Model of Python `s.endswith(p)`. -/
def strEndsWith (s p : Str) : Bool := strStartsWith s.reverse p.reverse

/-- Model of Python `s.split(sep)` for a single-character separator:
always returns at least one piece, and empty pieces are kept
(`"".split(".") == [""]`, `"a.".split(".") == ["a", ""]`). -/
def splitOnChar (sep : Char) : Str → List Str
  | [] => [[]]
  | c :: rest =>
    let r := splitOnChar sep rest
    if c == sep then [] :: r
    else
      match r with
      | [] => [[c]]
      | h :: t => (c :: h) :: t

/-- Model of Python `fnmatch.fnmatch` / `pathlib.glob` name matching
for patterns built from literal characters, `*` and `?` (the only
pattern features the discovery code relies on; character classes are
not modelled). -/
def fnmatch : Str → Str → Bool
  | [], [] => true
  | [], _ :: _ => false
  | '*' :: ps, [] => fnmatch ps []
  | '*' :: ps, c :: cs => fnmatch ps (c :: cs) || fnmatch ('*' :: ps) cs
  | '?' :: _, [] => false
  | '?' :: ps, _ :: cs => fnmatch ps cs
  | _ :: _, [] => false
  | p :: ps, c :: cs => p == c && fnmatch ps cs
termination_by p s => (p.length, s.length)

/-! ## Specifier parser (`_split_components`, `_parse_test_specifier`) -/

/-- `_split_components` (test_discovery.py lines 501-519): a component
containing exactly one dot splits into `(file, method)`; with several
dots it is treated as a file name with an extension; with no dot it is
a file without extension. -/
def _split_components (path_component : Str) : Option Str × Option Str :=
  if strContainsChar path_component '.' then
    match splitOnChar '.' path_component with
    | [f, m] => (some f, some m)
    | _ => (some path_component, none)
  else (some path_component, none)

/-- Model of `str(Path(*components))` for the already-split non-empty
normal components the parser joins back (lines 553): a `/`-join.
`Path` normalisation of empty or `.` components is not modelled; the
claims about the parser concern separator-free specifiers, which never
reach this join. -/
def joinSlash : List Str → Str
  | [] => []
  | [s] => s
  | s :: rest => s ++ '/' :: joinSlash rest

/-- The wildcard fold at the end of `_parse_test_specifier` (lines
556-560): if the parsed `file` contains `*`, fold it into `directory`
(Python's `if directory` is a truthiness test, so an empty directory
string behaves like an absent one) and clear `file`; `method` is kept. -/
def foldWildcardFile : Option Str × Option Str × Option Str → Option Str × Option Str × Option Str
  | (directory, some f, method) =>
    if strContainsChar f '*' then
      (some
        (match directory with
         | some d => if d = [] then f else d ++ '/' :: f
         | none => f),
       none, method)
    else (directory, some f, method)
  | dfm => dfm

/-- The component dispatch of `_parse_test_specifier` (lines 534-554):
split on `/`; one component is a `file.method` or a bare directory,
two are `directory/file[.method]`, three or more join all but the last
into `directory`. -/
def parseComponents (path_components : List Str) : Option Str × Option Str × Option Str :=
  match path_components with
  | [] => (none, none, none)
  | [c] =>
    if strContainsChar c '.' then
      let fm := _split_components c
      (none, fm.1, fm.2)
    else (some c, none, none)
  | [d, c] =>
    let fm := _split_components c
    (some d, fm.1, fm.2)
  | comps =>
    let d := joinSlash comps.dropLast
    let lastc := comps.getLast?.getD []
    let fm := _split_components lastc
    (some d, fm.1, fm.2)

/-- `_parse_test_specifier` (lines 522-562): parse a specifier into
`(directory, file, method)` components. -/
def _parse_test_specifier (specifier : Str) : Option Str × Option Str × Option Str :=
  foldWildcardFile (parseComponents (splitOnChar '/' specifier))

/-! ## File matcher (`_find_test_files`) -/

/-- The errors `discover_tests_from_specifier` raises (both are
`NoTestFilesFoundError(ValueError)`, lines 871-879); the formatted
message text is presentation only and modelled by the tag. -/
inductive DiscoveryErr where
  | noValidTestDirectories
  | noTestFilesFound
deriving DecidableEq, Repr

/-- The test-file naming convention of the no-file branch of
`_find_test_files` (lines 733-737): a `*.py` glob hit whose name
starts with `test_` or ends with `_test.py`. -/
def followsNamingConvention (n : Str) : Bool :=
  strEndsWith n ".py".data && (strStartsWith n "test_".data || strEndsWith n "_test.py".data)

/-- `_find_test_files` (lines 702-744) over an abstract read-only
filesystem `fs` mapping a directory path to the names of the files it
holds (directory iteration order).  Exact names get a `.py` suffix if
missing and require presence; wildcard names are glob-expanded;
without a file component, all conventionally named `*.py` files of
each search root match.  Nothing outside `search_dirs` is consulted. -/
def _find_test_files (fs : Str → List Str) (file : Option Str) (search_dirs : List Str) :
    List (Str × Str) :=
  search_dirs.flatMap (fun test_dir =>
    match file with
    | some f =>
      if strContainsChar f '*' then
        ((fs test_dir).filter (fun n => strEndsWith n ".py".data && fnmatch f n)).map
          (fun n => (test_dir, n))
      else
        let file_with_ext := if strEndsWith f ".py".data then f else f ++ ".py".data
        if (fs test_dir).contains file_with_ext then [(test_dir, file_with_ext)] else []
    | none =>
      ((fs test_dir).filter followsNamingConvention).map (fun n => (test_dir, n)))

/-! ## Test item extractor

The extractor inspects a loaded module.  A module is modelled by its
`__dict__` in insertion (declaration) order, holding class and function
objects; each callable carries its name, source line number
(`inspect.getsourcelines(...)[1]`), whether it is a coroutine function,
and whether it bears the explicit test tags (`_is_ble_test` /
`_is_test_class`). -/

/-- A method of a test class. -/
structure PyMethod where
  name : Str
  line : Nat
  isCoroutine : Bool
  isTaggedTest : Bool
deriving DecidableEq, Repr

/-- A class object in a module's `__dict__`.  `methods` lists its
function members in class-body declaration order;
`inspect.getmembers` re-sorts them by name before the extractor sees
them. -/
structure PyClassDef where
  name : Str
  isTaggedTestClass : Bool
  methods : List PyMethod
deriving DecidableEq, Repr

/-- A module-scope function object. -/
structure PyFuncDef where
  name : Str
  line : Nat
  isCoroutine : Bool
  isTaggedTest : Bool
deriving DecidableEq, Repr

/-- One entry of a module's `__dict__` the extractor looks at
(attributes that are neither classes nor callables are filtered out by
the source's `inspect.isclass` / `callable` tests and are not
modelled). -/
inductive PyMember where
  | classDef (c : PyClassDef)
  | funcDef (f : PyFuncDef)
deriving DecidableEq, Repr

/-- A loaded module: its relative module name (the file stem, used as
the test-name prefix) and its `__dict__` entries in declaration order. -/
structure PyModule where
  relModule : Str
  members : List PyMember
deriving DecidableEq, Repr

/-- A discovered `TestItem` as stored in the result list: either the
`(class_full_name, class_obj, method)` tuple built at line 442 or a
bare function object. -/
inductive TestItemD where
  | classMethod (classFullName : Str) (classRef : PyClassDef) (methodRef : PyMethod)
  | funcRef (f : PyFuncDef)
deriving DecidableEq, Repr

/-- The `(test_name, class_full_name, class_obj, method_obj,
line_number)` tuples collected by `_find_test_methods_in_class`. -/
structure ClassTestEntry where
  testName : Str
  classFullName : Str
  classRef : PyClassDef
  methodRef : PyMethod
  line : Nat
deriving DecidableEq, Repr

/-- The `(test_name, function, line_number)` tuples collected by
`_find_standalone_test_functions`. -/
structure FuncTestEntry where
  testName : Str
  funcRef : PyFuncDef
  line : Nat
deriving DecidableEq, Repr

/-- `_check_wildcard_match` (lines 172-182): no pattern matches
everything, otherwise `fnmatch`. -/
def _check_wildcard_match (test_wildcard : Option Str) (test_string : Str) : Bool :=
  match test_wildcard with
  | none => true
  | some p => fnmatch p test_string

/-- Python's `list.sort(key=...)` / `sorted(...)`: a stable sort.  Any
stable sort over the same total preorder produces the same list, so
the stable `List.insertionSort` models it exactly. -/
def pySortBy (r : α → α → Prop) [DecidableRel r] (l : List α) : List α :=
  List.insertionSort r l

/-- `_find_test_methods_in_class` (lines 308-355): walk the class's
function members (`inspect.getmembers` returns them sorted by name),
keep those matching the method pattern that follow the `test_` naming
convention or carry the test tag, skip non-coroutines with a warning,
and sort the survivors by source line number. -/
def _find_test_methods_in_class (class_obj : PyClassDef) (class_full_name : Str)
    (method_or_wildcard : Option Str) : List ClassTestEntry :=
  let members := pySortBy (fun a b : PyMethod => a.name ≤ b.name) class_obj.methods
  let collected := members.filterMap (fun m =>
    if !_check_wildcard_match method_or_wildcard m.name then none
    else if !(m.isTaggedTest || strStartsWith m.name "test_".data) then none
    else if m.isCoroutine then
      some ⟨class_full_name ++ '.' :: m.name, class_full_name, class_obj, m, m.line⟩
    else none)
  pySortBy (fun a b : ClassTestEntry => a.line ≤ b.line) collected

/-- `_find_test_classes` (lines 278-305): walk the module `__dict__` in
declaration order; every class whose name starts with `Test` or that
is tagged as a test class contributes its method entries. -/
def _find_test_classes (module : PyModule) (rel_module : Str)
    (method_or_wildcard : Option Str) : List ClassTestEntry :=
  module.members.flatMap (fun mem =>
    match mem with
    | .classDef c =>
      if strStartsWith c.name "Test".data || c.isTaggedTestClass then
        _find_test_methods_in_class c (rel_module ++ '.' :: c.name) method_or_wildcard
      else []
    | .funcDef _ => [])

/-- `_find_standalone_test_functions` (lines 358-400): walk the module
`__dict__` in declaration order; keep callables that are not classes,
match the pattern, follow the naming convention or carry the tag, are
not one of the already-collected class methods (the source compares
object identity `t[3] == obj`, modelled as same name and declaration
line), and are coroutines (others are skipped with a warning); sort by
line number. -/
def _find_standalone_test_functions (module : PyModule) (rel_module : Str)
    (method_or_wildcard : Option Str) (class_tests : List ClassTestEntry) : List FuncTestEntry :=
  let collected := module.members.filterMap (fun mem =>
    match mem with
    | .classDef _ => none
    | .funcDef f =>
      if !_check_wildcard_match method_or_wildcard f.name then none
      else if !(f.isTaggedTest || strStartsWith f.name "test_".data) then none
      else if class_tests.any (fun t => t.methodRef.name == f.name && t.methodRef.line == f.line)
        then none
      else if f.isCoroutine then some ⟨rel_module ++ '.' :: f.name, f, f.line⟩
      else none)
  pySortBy (fun a b : FuncTestEntry => a.line ≤ b.line) collected

/-- The extraction half of `_find_tests_in_module` (lines 431-448), on
an already loaded module (importing is modelled separately): class
tests first, then standalone function tests. -/
def _find_tests_in_module (module : PyModule) (method_or_wildcard : Option Str) :
    List (Str × TestItemD) :=
  let class_tests := _find_test_classes module module.relModule method_or_wildcard
  let function_tests :=
    _find_standalone_test_functions module module.relModule method_or_wildcard class_tests
  class_tests.map (fun t => (t.testName, TestItemD.classMethod t.classFullName t.classRef t.methodRef))
    ++ function_tests.map (fun t => (t.testName, TestItemD.funcRef t.funcRef))

/-- `_process_test_files` (lines 806-842) applied to the modules loaded
from the matched files, in file order (import-name computation and the
per-module load-error isolation are modelled separately). -/
def _process_test_files (modules : List PyModule) (method : Option Str) :
    List (Str × TestItemD) :=
  modules.flatMap (fun m => _find_tests_in_module m method)

/-- The tail of `discover_tests_from_specifier` (lines 869-886) after
directory resolution: fail if there are no search directories, find
the test files, fail if there are none, extract tests from the loaded
modules (`load` maps a `(directory, filename)` pair to its loaded
module) and sort the flat result list by qualified test name
(`discovered_tests.sort(key=lambda x: x[0])`). -/
def discover_from_search_dirs (fs : Str → List Str) (load : Str → Str → PyModule)
    (file : Option Str) (method : Option Str) (search_dirs : List Str) :
    Except DiscoveryErr (List (Str × TestItemD)) :=
  if search_dirs.isEmpty then .error .noValidTestDirectories
  else
    let test_file_paths := _find_test_files fs file search_dirs
    if test_file_paths.isEmpty then .error .noTestFilesFound
    else
      .ok (pySortBy (fun a b : Str × TestItemD => a.1 ≤ b.1)
        (_process_test_files (test_file_paths.map (fun p => load p.1 p.2)) method))

/-- `TestRunner.discover_tests` (test_runner.py lines 31-43)
instrumented with the list of specifiers actually handed to
`discover_tests_from_specifier` (here abstracted as `disc`): the loop
extends one result list and has no error handling, so the first
raised discovery error propagates and ends the loop. -/
def TestRunner.discover_tests_aux (disc : Str → Except DiscoveryErr (List (Str × TestItemD))) :
    List Str → List Str × Except DiscoveryErr (List (Str × TestItemD))
  | [] => ([], .ok [])
  | s :: rest =>
    match disc s with
    | .error e => ([s], .error e)
    | .ok ts =>
      let pr := TestRunner.discover_tests_aux disc rest
      (s :: pr.1,
        match pr.2 with
        | .error e => .error e
        | .ok more => .ok (ts ++ more))

/-- `TestRunner.discover_tests`: the value the caller sees. -/
def TestRunner.discover_tests (disc : Str → Except DiscoveryErr (List (Str × TestItemD)))
    (test_specifiers : List Str) : Except DiscoveryErr (List (Str × TestItemD)) :=
  (TestRunner.discover_tests_aux disc test_specifiers).2

/-- The specifiers processed before `TestRunner.discover_tests`
returned or raised. -/
def TestRunner.discover_tests_processed
    (disc : Str → Except DiscoveryErr (List (Str × TestItemD)))
    (test_specifiers : List Str) : List Str :=
  (TestRunner.discover_tests_aux disc test_specifiers).1

/-! ## Module loader (`_import_module_from_file`, `_import_test_module`)

The interpreter-level import state is modelled by the set of names
registered in `sys.modules` (in registration order) together with a
log of top-level module-body executions — one entry per
`exec_module` / fresh machinery import, which is exactly where a
module's side effects run. -/

/-- The observable import state: `sys.modules` keys and the execution
log of module bodies. -/
structure ImportState where
  sysModules : List Str
  execLog : List Str
deriving DecidableEq, Repr

/-- `_import_module_from_file` (test_discovery.py lines 210-236):
build a spec from the file, register the module object in
`sys.modules[import_name]` (overwriting any existing entry) and
execute the module body.  There is no cache check: the body executes
on every call. -/
def _import_module_from_file (s : ImportState) (import_name : Str) : ImportState :=
  { sysModules :=
      if import_name ∈ s.sysModules then s.sysModules else s.sysModules ++ [import_name],
    execLog := s.execLog ++ [import_name] }

/-- `importlib.import_module`, as used at line 257: the standard
machinery of the interpreter first consults `sys.modules` and returns
the cached module without re-executing anything; on a miss it imports
the module (executing its body once) when the name is reachable on
the path (`importable`), and raises `ImportError` otherwise. -/
def import_module (importable : Str → Bool) (s : ImportState) (import_name : Str) :
    Except Unit ImportState :=
  if import_name ∈ s.sysModules then .ok s
  else if importable import_name then
    .ok { sysModules := s.sysModules ++ [import_name], execLog := s.execLog ++ [import_name] }
  else .error ()

/-- `_import_test_module` (lines 239-275): with a package directory,
try the standard package import and fall back to the file-based import
on `ImportError`; without one, import the file directly.  (`file_path`
only feeds the file-based import and is implicit in `import_name`
here.) -/
def _import_test_module (importable : Str → Bool) (package_dir : Option Str)
    (import_name : Str) (s : ImportState) : ImportState :=
  match package_dir with
  | some _ =>
    match import_module importable s import_name with
    | .ok s' => s'
    | .error _ => _import_module_from_file s import_name
  | none => _import_module_from_file s import_name

/-! ## Nearest-package lookup (`find_and_import_nearest_package`) -/

/-- `MAX_IMPORT_PARENT_DIRECTORIES` (test_discovery.py line 32). -/
def MAX_IMPORT_PARENT_DIRECTORIES : Nat := 2

/-- A directory path as its component list from the filesystem root;
`[]` is the root itself.  `Path.parent` drops the last component, and
the parent of the root is the root (which is how the loop's
`parent_dir == current_dir` root test fires). -/
def parentDir : List Str → List Str
  | [] => []
  | ps => ps.dropLast

/-- The `while parent_count < MAX_IMPORT_PARENT_DIRECTORIES` loop of
`find_and_import_nearest_package` (lines 122-149) over an abstract
package test `isPkg` (a directory is a package when it holds an
`__init__.py`): return the first package among the visited
directories, stop at the filesystem root, and give up once the counter
reaches the bound.  The `_import_package` side effect performed on a
hit does not affect the returned value and is not modelled. -/
def findNearestPackageLoop (isPkg : List Str → Bool) (current_dir : List Str)
    (parent_count : Nat) : Option (List Str) :=
  if h : parent_count < MAX_IMPORT_PARENT_DIRECTORIES then
    if isPkg current_dir then some current_dir
    else
      let parent_dir := parentDir current_dir
      if parent_dir = current_dir then none
      else findNearestPackageLoop isPkg parent_dir (parent_count + 1)
  else none
termination_by MAX_IMPORT_PARENT_DIRECTORIES - parent_count
decreasing_by simp_wf; omega

/-- `find_and_import_nearest_package` (lines 113-149): start at the
given path with a zero counter. -/
def find_and_import_nearest_package (isPkg : List Str → Bool) (path : List Str) :
    Option (List Str) :=
  findNearestPackageLoop isPkg path 0

/-! ## Theorems -/

/-- C1 (code bug): the claim — matching the spec's scenario — says that
once the test class instance was constructed, tearDown is always
attempted, including when `setUp` raises.  In the code, however,
`run_test`'s local `test_class_instance` is assigned only when
`_run_class_test` returns normally (line 75), so on the setUp-raises
path the `finally:` block sees `None` and skips tearDown even though
the instance was constructed; the evaluation below exhibits this at a
concrete class test whose constructor succeeds, whose `setUp` raises,
and which has a `tearDown`: the result is ERROR (as the spec's
scenario also says) but tearDown is never attempted. -/
theorem c1_teardown_skipped_when_setup_raises :
    (run_test ⟨[]⟩ "test_mod.TestDevice.test_m"
        (.classItem ⟨"TestDevice", none, true, some (.otherError "setUp boom"), none,
          true, none⟩)).tearDownAttempted = false
    ∧ (ClassItem.constructorRaises
        ⟨"TestDevice", none, true, some (.otherError "setUp boom"), none, true, none⟩) = none
    ∧ (run_test ⟨[]⟩ "test_mod.TestDevice.test_m"
        (.classItem ⟨"TestDevice", none, true, some (.otherError "setUp boom"), none,
          true, none⟩)).result.status = .error := by
  decide

/-- C5: the raised exception determines the terminal status and
message of `run_test`'s result — TestFailure or AssertionError give
FAIL with the failure text, TestSkip gives SKIP with the skip text,
TestException gives its carried status, TimeoutError gives ERROR, any
other exception gives ERROR with the exception text, and a normal
return gives PASS — and `run_tests` hands every test of the batch to
`run_test` no matter what the earlier outcomes were. -/
theorem c5_exception_status_mapping (ctx : TestContext) (test_name : String) (item : TestItem)
    (hprior : ∀ r, lookupResult ctx.test_results test_name = some r →
      r.status = TestStatus.running) :
    ((runTestBody item = .ok () → (run_test ctx test_name item).result = ⟨.pass, ""⟩)
      ∧ (∀ m, runTestBody item = .error (.testFailure m) →
          (run_test ctx test_name item).result = ⟨.fail, m⟩)
      ∧ (∀ m, runTestBody item = .error (.assertionError m) →
          (run_test ctx test_name item).result = ⟨.fail, m⟩)
      ∧ (∀ m, runTestBody item = .error (.testSkip m) →
          (run_test ctx test_name item).result = ⟨.skip, m⟩)
      ∧ (∀ s m, runTestBody item = .error (.testException s m) →
          (run_test ctx test_name item).result = ⟨s, m⟩)
      ∧ (∀ m, runTestBody item = .error (.timeoutError m) →
          (run_test ctx test_name item).result = ⟨.error, m⟩)
      ∧ (∀ m, runTestBody item = .error (.otherError m) →
          (run_test ctx test_name item).result = ⟨.error, m⟩))
    ∧ ∀ (start : TestContext) (tests : List (String × TestItem)),
        (run_tests start tests).2 = tests.length := by
  have hrun : run_test ctx test_name item = runTestFresh ctx test_name item := by
    unfold run_test
    cases hl : lookupResult ctx.test_results test_name with
    | none => rfl
    | some r => simp [hprior r hl]
  constructor
  · refine ⟨?_, ?_, ?_, ?_, ?_, ?_, ?_⟩ <;>
      · intros
        rw [hrun]
        unfold runTestFresh
        simp_all [excToResult]
  · intro start tests
    induction tests generalizing start with
    | nil => rfl
    | cons h t ih => simp [run_tests, ih]

/-- C5 witness: a standalone test raising `TestFailure("X")` ends FAIL
with message `X`. -/
theorem c5_exception_status_mapping_witness :
    (run_test ⟨[]⟩ "m.test_f" (.funcItem ⟨some (.testFailure "X")⟩)).result = ⟨.fail, "X"⟩ :=
  ((c5_exception_status_mapping ⟨[]⟩ "m.test_f" (.funcItem ⟨some (.testFailure "X")⟩)
      (by intro r hr; exact Option.noConfusion hr)).1.2.1) "X" rfl

/-- C8: when a prior result exists under this test name with a status
other than RUNNING, `run_test` returns that result unchanged, leaves
the results store untouched and executes nothing. -/
theorem c8_duplicate_result_guard (ctx : TestContext) (test_name : String) (item : TestItem)
    (r : TestResult) (h1 : lookupResult ctx.test_results test_name = some r)
    (h2 : r.status ≠ TestStatus.running) :
    run_test ctx test_name item = ⟨r, ctx.test_results, false, false, none⟩ := by
  unfold run_test
  rw [h1]
  simp [h2]

/-- C8 witness: a second `run_test` call for a name that already
passed returns the PASS result unchanged even though the second item
would raise. -/
theorem c8_duplicate_result_guard_witness :
    run_test ⟨[("m.test_a", ⟨.pass, "done"⟩)]⟩ "m.test_a"
        (.funcItem ⟨some (.otherError "boom")⟩)
      = ⟨⟨.pass, "done"⟩, [("m.test_a", ⟨.pass, "done"⟩)], false, false, none⟩ :=
  c8_duplicate_result_guard _ _ _ _ (by decide) (by decide)

/-- C10: `find_and_import_nearest_package` examines only the given
directory and its immediate parent; when neither is a package it
returns `None`, whatever `isPkg` says about higher ancestors. -/
theorem c10_checks_at_most_two_directories (isPkg : List Str → Bool) (path : List Str)
    (h1 : isPkg path = false) (h2 : isPkg (parentDir path) = false) :
    find_and_import_nearest_package isPkg path = none := by
  unfold find_and_import_nearest_package
  rw [findNearestPackageLoop]
  simp only [MAX_IMPORT_PARENT_DIRECTORIES, h1]
  norm_num
  intro hne1
  rw [findNearestPackageLoop]
  simp only [MAX_IMPORT_PARENT_DIRECTORIES, h2]
  norm_num
  intro hne2
  rw [findNearestPackageLoop]
  simp only [MAX_IMPORT_PARENT_DIRECTORIES]
  norm_num

/-- C10 witness: a concrete three-level path whose grandparent is a
package still yields `none`, because only the directory and its parent
are examined. -/
theorem c10_checks_at_most_two_directories_witness :
    find_and_import_nearest_package (fun l => decide (l = ["a".data]))
        ["a".data, "b".data, "c".data] = none
    ∧ (fun l : List Str => decide (l = ["a".data]))
        (parentDir (parentDir ["a".data, "b".data, "c".data])) = true :=
  ⟨c10_checks_at_most_two_directories _ _ (by decide) (by decide), by decide⟩

/-- C3 counterexample: a non-package flat-file load has no cache
check — loading the same identifier twice from a fresh state executes
the module body twice, so its top-level side effects do not run
exactly once per run, contrary to the claim's "for package-qualified
and for non-package flat-file loads alike". -/
theorem c3_flat_file_reload_reexecutes :
    (_import_test_module (fun _ => false) none "mod".data
        (_import_test_module (fun _ => false) none "mod".data ⟨[], []⟩)).execLog
      = ["mod".data, "mod".data]
    ∧ ((_import_test_module (fun _ => false) none "mod".data
        (_import_test_module (fun _ => false) none "mod".data ⟨[], []⟩)).execLog.count
          "mod".data ≠ 1) := by
  decide

/-- C3 (amended): a package-qualified load is idempotent — after the
first `_import_test_module` the identifier is registered in
`sys.modules`, so a second load returns the cached state unchanged and
the module body is not re-executed — whereas a non-package flat-file
load appends one body execution per call. -/
theorem c3_package_load_cached_flat_load_repeats (importable : Str → Bool) (pkg : Str)
    (import_name : Str) (s : ImportState) :
    (_import_test_module importable (some pkg) import_name
        (_import_test_module importable (some pkg) import_name s)
      = _import_test_module importable (some pkg) import_name s)
    ∧ ((_import_test_module importable none import_name
        (_import_test_module importable none import_name s)).execLog
      = s.execLog ++ [import_name, import_name]) := by
  constructor
  · have hmem : import_name ∈ (_import_test_module importable (some pkg) import_name s).sysModules := by
      unfold _import_test_module import_module _import_module_from_file
      by_cases h0 : import_name ∈ s.sysModules
      · simp [h0]
      · by_cases hi : importable import_name <;> simp [h0, hi]
    generalize hgen : _import_test_module importable (some pkg) import_name s = s1 at hmem ⊢
    unfold _import_test_module import_module
    simp [hmem]
  · unfold _import_test_module _import_module_from_file
    simp

/-- A discovery callback for exercising `TestRunner.discover_tests`:
the specifier `bad` raises `NoTestFilesFoundError`, every other
specifier discovers one standalone test. -/
def c4disc : Str → Except DiscoveryErr (List (Str × TestItemD)) := fun s =>
  if s = "bad".data then .error .noTestFilesFound
  else .ok [("good.test_g".data, .funcRef ⟨"test_g".data, 1, true, false⟩)]

/-- C4 counterexample: with two specifiers of which the first raises a
discovery error, `TestRunner.discover_tests` raises that error, the
second specifier is never handed to discovery, and its (discoverable)
test is absent from any returned list — so a discovery error for one
specifier does prevent the remaining specifiers from being
processed. -/
theorem c4_error_aborts_remaining_specifiers :
    TestRunner.discover_tests c4disc ["bad".data, "good".data] = .error .noTestFilesFound
    ∧ TestRunner.discover_tests_processed c4disc ["bad".data, "good".data] = ["bad".data]
    ∧ c4disc "good".data
      = .ok [("good.test_g".data, .funcRef ⟨"test_g".data, 1, true, false⟩)] :=
  ⟨rfl, rfl, rfl⟩

/-- Helper for C4: running the specifier loop over a list whose first
failing specifier is `b` propagates `b`'s error and stops after `b`. -/
theorem discover_tests_aux_append_error
    (disc : Str → Except DiscoveryErr (List (Str × TestItemD)))
    (pre post : List Str) (b : Str) (e : DiscoveryErr)
    (hpre : ∀ s ∈ pre, (disc s).isOk = true)
    (hb : disc b = .error e) :
    TestRunner.discover_tests_aux disc (pre ++ b :: post) = (pre ++ [b], .error e) := by
  induction pre with
  | nil => simp [TestRunner.discover_tests_aux, hb]
  | cons x xs ih =>
    have hx := hpre x (List.mem_cons_self x xs)
    obtain ⟨ts, hts⟩ : ∃ ts, disc x = .ok ts := by
      cases hdx : disc x with
      | ok ts => exact ⟨ts, rfl⟩
      | error e2 => rw [hdx] at hx; simp [Except.isOk, Except.toBool] at hx
    have ih' := ih (fun s hs => hpre s (List.mem_cons_of_mem x hs))
    simp [TestRunner.discover_tests_aux, hts, ih']

/-- C4 (amended): the specifier loop of `TestRunner.discover_tests`
has no per-specifier error handling — the first specifier whose
discovery raises makes the whole call raise that error, and the
specifiers after it are never processed. -/
theorem c4_first_failing_specifier_aborts
    (disc : Str → Except DiscoveryErr (List (Str × TestItemD)))
    (pre post : List Str) (b : Str) (e : DiscoveryErr)
    (hpre : ∀ s ∈ pre, (disc s).isOk = true)
    (hb : disc b = .error e) :
    TestRunner.discover_tests disc (pre ++ b :: post) = .error e
    ∧ TestRunner.discover_tests_processed disc (pre ++ b :: post) = pre ++ [b] := by
  have h := discover_tests_aux_append_error disc pre post b e hpre hb
  constructor
  · simp [TestRunner.discover_tests, h]
  · simp [TestRunner.discover_tests_processed, h]

/-- C4 witness: one good specifier, then a failing one, then another —
the call raises and stops after the failing specifier. -/
theorem c4_first_failing_specifier_aborts_witness :
    TestRunner.discover_tests c4disc ["ok".data, "bad".data, "later".data]
      = .error .noTestFilesFound
    ∧ TestRunner.discover_tests_processed c4disc ["ok".data, "bad".data, "later".data]
      = ["ok".data, "bad".data] :=
  c4_first_failing_specifier_aborts c4disc ["ok".data] ["later".data] "bad".data
    .noTestFilesFound (by decide) rfl

/-- Helper for C9: splitting a string that does not contain the
separator yields the one-piece list. -/
theorem splitOnChar_of_not_contains (sep : Char) (s : Str)
    (h : strContainsChar s sep = false) : splitOnChar sep s = [s] := by
  induction s with
  | nil => rfl
  | cons c cs ih =>
    rw [strContainsChar, Bool.or_eq_false_iff] at h
    obtain ⟨h1, h2⟩ := h
    rw [splitOnChar]
    simp [h1, ih h2]

/-- C9 counterexample: the claim says a separator-free specifier
containing a dot is returned as `(file, method)` split at the dot; on
`a.b.c` (which contains a dot) the parser instead returns the whole
component as `file` with `method` unset — nothing is split. -/
theorem c9_multi_dot_component_not_split :
    _parse_test_specifier "a.b.c".data = (none, some "a.b.c".data, none)
    ∧ strContainsChar "a.b.c".data '.' = true :=
  ⟨rfl, rfl⟩

/-- C9 (amended): for a separator-free specifier, a component with no
dot becomes the directory; a component with exactly one dot (and no
wildcard in its file part) splits into `(file, method)` with the
directory unset; a component with two or more dots (and no wildcard)
becomes the whole `file` with `method` and directory unset. -/
theorem c9_single_component_parse (s f m : Str)
    (hs : splitOnChar '/' s = [s]) :
    (strContainsChar s '.' = false → _parse_test_specifier s = (some s, none, none))
    ∧ (splitOnChar '.' s = [f, m] → strContainsChar f '*' = false →
        _parse_test_specifier s = (none, some f, some m))
    ∧ (strContainsChar s '.' = true → 3 ≤ (splitOnChar '.' s).length →
        strContainsChar s '*' = false →
        _parse_test_specifier s = (none, some s, none)) := by
  refine ⟨?_, ?_, ?_⟩
  · intro hdot
    unfold _parse_test_specifier
    rw [hs]
    unfold parseComponents
    simp [hdot, foldWildcardFile]
  · intro hsplit hstar
    have hdot : strContainsChar s '.' = true := by
      cases hc : strContainsChar s '.' with
      | true => rfl
      | false =>
        have hone := splitOnChar_of_not_contains '.' s hc
        rw [hone] at hsplit
        simp at hsplit
    unfold _parse_test_specifier
    rw [hs]
    unfold parseComponents _split_components
    simp [hdot, hsplit, foldWildcardFile, hstar]
  · intro hdot hlen hstar
    unfold _parse_test_specifier
    rw [hs]
    unfold parseComponents _split_components
    rcases hsp : splitOnChar '.' s with _ | ⟨a, _ | ⟨b, _ | ⟨c, rest⟩⟩⟩
    · rw [hsp] at hlen; simp at hlen
    · rw [hsp] at hlen; simp at hlen
    · rw [hsp] at hlen; simp at hlen
    · simp [hdot, hsp, foldWildcardFile, hstar]

/-- C9 witness: `file.method` parses to a split `(file, method)` with
the directory unset. -/
theorem c9_single_component_parse_witness :
    _parse_test_specifier "file.method".data = (none, some "file".data, some "method".data) :=
  (c9_single_component_parse "file.method".data "file".data "method".data (by decide)).2.1
    (by decide) (by decide)

/-- The filesystem of the C6 counterexample: the single search root
`r` holds one non-test `.py` file, while its `tests` subfolder holds a
conventionally named test file. -/
def c6fs : Str → List Str := fun d =>
  if d = "r".data then ["helper.py".data]
  else if d = "r/tests".data then ["test_x.py".data]
  else []

/-- C6 counterexample: with no file component and a root whose `tests`
subfolder holds a conventionally named test file, the matcher returns
nothing and discovery fails — there is no retry inside the `tests`
subfolder (the helper that would look there, `_check_if_file_exists`,
is never called by the discovery flow). -/
theorem c6_no_tests_subfolder_retry :
    _find_test_files c6fs none ["r".data] = []
    ∧ c6fs "r/tests".data = ["test_x.py".data]
    ∧ followsNamingConvention "test_x.py".data = true
    ∧ discover_from_search_dirs c6fs (fun _ _ => ⟨[], []⟩) none none ["r".data]
      = .error .noTestFilesFound :=
  ⟨by decide, by decide, by decide, rfl⟩

/-- C6 (amended): with no file component the matcher selects exactly
the conventionally named `.py` files of the search roots themselves,
and it consults nothing outside the search roots — in particular a
root's `tests` subfolder is never read, and no retry happens when
nothing matches. -/
theorem c6_convention_match_roots_only (fs fs' : Str → List Str)
    (search_dirs : List Str) (file : Option Str) (d n : Str) :
    ((d, n) ∈ _find_test_files fs none search_dirs
      ↔ d ∈ search_dirs ∧ n ∈ fs d ∧ followsNamingConvention n = true)
    ∧ ((∀ x ∈ search_dirs, fs x = fs' x) →
        _find_test_files fs file search_dirs = _find_test_files fs' file search_dirs) := by
  constructor
  · simp only [_find_test_files, List.mem_flatMap, List.mem_map, List.mem_filter]
    constructor
    · rintro ⟨a, ha, n', ⟨hn', hconv⟩, heq⟩
      obtain ⟨rfl, rfl⟩ := Prod.mk.injEq .. ▸ And.intro (congrArg Prod.fst heq) (congrArg Prod.snd heq)
      exact ⟨ha, hn', hconv⟩
    · rintro ⟨hd, hn, hconv⟩
      exact ⟨d, hd, n, ⟨hn, hconv⟩, rfl⟩
  · intro hagree
    have key : ∀ (l : List Str) (g g' : Str → List (Str × Str)), (∀ x ∈ l, g x = g' x) →
        l.flatMap g = l.flatMap g' := by
      intro l g g' hgg
      induction l with
      | nil => rfl
      | cons x xs ih =>
        rw [List.flatMap_cons, List.flatMap_cons, hgg x (List.mem_cons_self x xs),
          ih (fun y hy => hgg y (List.mem_cons_of_mem x hy))]
    unfold _find_test_files
    apply key
    intro x hx
    simp only [hagree x hx]

/-- C6 witness: the matcher's output is unchanged when the contents of
a root's `tests` subfolder change, because only the roots themselves
are read. -/
theorem c6_convention_match_roots_only_witness :
    _find_test_files c6fs none ["r".data]
      = _find_test_files (fun d => if d = "r".data then ["helper.py".data] else []) none
        ["r".data] :=
  (c6_convention_match_roots_only c6fs
      (fun d => if d = "r".data then ["helper.py".data] else []) ["r".data] none [] []).2
    (by intro x hx; simp only [List.mem_singleton] at hx; subst hx; decide)

/-- Helper for C7: a matcher run over several directories is empty
when it is empty over each directory alone. -/
theorem find_test_files_nil_of_all_nil (fs : Str → List Str) (file : Option Str)
    (dirs : List Str) (h : ∀ d ∈ dirs, _find_test_files fs file [d] = []) :
    _find_test_files fs file dirs = [] := by
  induction dirs with
  | nil => rfl
  | cons x xs ih =>
    have hx := h x (List.mem_cons_self x xs)
    have hxs := ih (fun y hy => h y (List.mem_cons_of_mem x hy))
    unfold _find_test_files at hx hxs ⊢
    rw [List.flatMap_cons]
    rw [List.flatMap_singleton] at hx
    rw [hx, hxs]
    rfl

/-- C7: when every resolved search directory contains no matching test
file (an empty directory, or one whose files all miss the pattern or
the naming convention), discovery for that specifier fails with the
terminal `NoTestFilesFoundError` and yields no test cases. -/
theorem c7_no_matching_files_is_terminal_error (fs : Str → List Str)
    (load : Str → Str → PyModule) (file method : Option Str) (search_dirs : List Str)
    (hne : search_dirs ≠ [])
    (h : ∀ d ∈ search_dirs, _find_test_files fs file [d] = []) :
    discover_from_search_dirs fs load file method search_dirs = .error .noTestFilesFound := by
  have hempty := find_test_files_nil_of_all_nil fs file search_dirs h
  unfold discover_from_search_dirs
  rw [hempty]
  simp [hne]

/-- C7 witness: one empty directory plus one directory holding only
files that miss the naming convention yield the terminal error. -/
theorem c7_no_matching_files_is_terminal_error_witness :
    discover_from_search_dirs
        (fun d => if d = "other".data then ["helper.py".data, "readme.md".data] else [])
        (fun _ _ => ⟨[], []⟩) none none ["empty".data, "other".data]
      = .error .noTestFilesFound :=
  c7_no_matching_files_is_terminal_error _ _ _ _ _ (by decide) (by decide)

/-- The name ordering used by the final discovery sort is total. -/
instance : IsTotal (Str × TestItemD) (fun a b => a.1 ≤ b.1) :=
  ⟨fun a b => le_total a.1 b.1⟩

/-- The name ordering used by the final discovery sort is transitive. -/
instance : IsTrans (Str × TestItemD) (fun a b => a.1 ≤ b.1) :=
  ⟨fun _ _ _ h1 h2 => le_trans h1 h2⟩

/-- The ordering C2 claims, as a reference list builder written from
the claim's words (not from the source): results grouped by module
with modules sorted by module name; within a module all class-derived
test cases first, then all standalone-function test cases, each group
sorted ascending by source declaration line. -/
def c2ClaimExpected (modules : List PyModule) (method : Option Str) :
    List (Str × TestItemD) :=
  (pySortBy (fun a b : PyModule => a.relModule ≤ b.relModule) modules).flatMap (fun mod =>
    let ct := _find_test_classes mod mod.relModule method
    let ft := _find_standalone_test_functions mod mod.relModule method ct
    (pySortBy (fun a b : ClassTestEntry => a.line ≤ b.line) ct).map
        (fun t => (t.testName, TestItemD.classMethod t.classFullName t.classRef t.methodRef))
      ++ (pySortBy (fun a b : FuncTestEntry => a.line ≤ b.line) ft).map
        (fun t => (t.testName, TestItemD.funcRef t.funcRef)))

/-- The module of the C2 scenario: two standalone async test
functions, `test_b` declared at line 3 before `test_a` at line 6. -/
def c2mod : PyModule :=
  ⟨"test_mod".data,
    [.funcDef ⟨"test_b".data, 3, true, false⟩, .funcDef ⟨"test_a".data, 6, true, false⟩]⟩

/-- The filesystem of the C2 scenario: one root with one test file. -/
def c2fs : Str → List Str := fun d => if d = "r".data then ["test_mod.py".data] else []

/-- Loading the C2 scenario's only file yields `c2mod`. -/
def c2load : Str → Str → PyModule := fun _ _ => c2mod

/-- C2 counterexample: the final `sort(key=lambda x: x[0])` orders the
returned list by qualified test name, not by declaration line — for a
module declaring `test_b` (line 3) before `test_a` (line 6), discovery
returns `test_a` before `test_b`, while the claimed ordering (grouped
by module, groups ascending by declaration line) puts `test_b` first;
the two orders differ. -/
theorem c2_declaration_order_not_preserved :
    discover_from_search_dirs c2fs c2load none none ["r".data]
      = .ok [("test_mod.test_a".data, .funcRef ⟨"test_a".data, 6, true, false⟩),
             ("test_mod.test_b".data, .funcRef ⟨"test_b".data, 3, true, false⟩)]
    ∧ c2ClaimExpected [c2mod] none
      = [("test_mod.test_b".data, .funcRef ⟨"test_b".data, 3, true, false⟩),
         ("test_mod.test_a".data, .funcRef ⟨"test_a".data, 6, true, false⟩)]
    ∧ (_find_test_files c2fs none ["r".data]).map (fun p => c2load p.1 p.2) = [c2mod]
    ∧ ([("test_mod.test_a".data, .funcRef ⟨"test_a".data, 6, true, false⟩),
        ("test_mod.test_b".data, .funcRef ⟨"test_b".data, 3, true, false⟩)]
          : List (Str × TestItemD))
        ≠ c2ClaimExpected [c2mod] none :=
  ⟨rfl, rfl, rfl, by decide⟩

/-- C2 (amended): for every specifier resolving to at least one file,
the returned list is the flat concatenation of the per-module
extraction results (class-derived tests before standalone tests per
module, in file order) re-sorted ascending by qualified test name —
so grouping by module and any class-before-function precedence hold
only insofar as the name ordering implies them, and within a group the
order is by name, not by source declaration line. -/
theorem c2_sorted_by_qualified_name (fs : Str → List Str) (load : Str → Str → PyModule)
    (file method : Option Str) (search_dirs : List Str) (l : List (Str × TestItemD))
    (h : discover_from_search_dirs fs load file method search_dirs = .ok l) :
    List.Sorted (fun a b : Str × TestItemD => a.1 ≤ b.1) l
    ∧ l.Perm (_process_test_files
        ((_find_test_files fs file search_dirs).map (fun p => load p.1 p.2)) method) := by
  unfold discover_from_search_dirs at h
  by_cases h1 : search_dirs.isEmpty <;> simp [h1] at h
  by_cases h2 : _find_test_files fs file search_dirs = []
  · simp [h2] at h
  · simp [h2] at h
    subst h
    unfold pySortBy
    exact ⟨List.sorted_insertionSort _ _, List.perm_insertionSort _ _⟩

/-- C2 witness: the concrete two-function module's discovery output is
name-sorted and a permutation of the extraction result. -/
theorem c2_sorted_by_qualified_name_witness :
    List.Sorted (fun a b : Str × TestItemD => a.1 ≤ b.1)
      [("test_mod.test_a".data, .funcRef ⟨"test_a".data, 6, true, false⟩),
       ("test_mod.test_b".data, .funcRef ⟨"test_b".data, 3, true, false⟩)]
    ∧ List.Perm
      [("test_mod.test_a".data, .funcRef ⟨"test_a".data, 6, true, false⟩),
       ("test_mod.test_b".data, .funcRef ⟨"test_b".data, 3, true, false⟩)]
      (_process_test_files
        ((_find_test_files c2fs none ["r".data]).map (fun p => c2load p.1 p.2)) none) :=
  c2_sorted_by_qualified_name c2fs c2load none none ["r".data]
    [("test_mod.test_a".data, .funcRef ⟨"test_a".data, 6, true, false⟩),
     ("test_mod.test_b".data, .funcRef ⟨"test_b".data, 3, true, false⟩)] rfl
